import Mathlib

/-
Verification of nbmolviz/widgets/components.py: a shallow embedding of the
AtomInspector, ViewerToolBase, SelBase and ReadoutFloatSlider widgets, with
theorems about their behaviour.

Conventions of the embedding:
  - Python objects of the external moldesign data model (atoms, residues,
    chains) become Lean structures carrying exactly the attributes the code
    reads.
  - Python list indexing, which raises IndexError when out of range, is
    modelled with Option (List.get?); a raised exception becomes none or
    Except.error.
  - traitlets semantics: assigning a trait stores the new value, but change
    notifications (and therefore links and observers) fire only when the new
    value differs from the old one.  Links and observers fire synchronously
    inside the assignment.
  - The Python float type and the float()/regex parsing routines of the
    external moldesign.utils module are parameters of the slider model.
-/

namespace Nbmolviz

/-- A chain of the external molecular data model; its name may be Python None. -/
structure Chain where
  name : Option String
deriving DecidableEq, Repr

/-- A residue of the external molecular data model, with the attributes that
components.py reads: name, resname, index, type and the owning chain. -/
structure Residue where
  name : String
  resname : String
  index : Nat
  type : String
  chain : Chain
deriving DecidableEq, Repr

/-- The owning molecule as seen from an atom: only its name is read. -/
structure MolRef where
  name : String
deriving DecidableEq, Repr

/-- An atom of the external molecular data model, with the attributes that
components.py reads. -/
structure Atom where
  name : String
  symbol : String
  index : Nat
  residue : Residue
  molecule : MolRef
deriving DecidableEq, Repr

/-- Modelled from the spec: the data model reaches an atom's chain
transitively through its residue (spec section 3), so atom.chain is its
residue's chain.  The moldesign library itself is external to this repository. -/
def Atom.chain (a : Atom) : Chain :=
  a.residue.chain

/-- A molecule as used by the selection toolbar: an ordered atom list. -/
structure Molecule where
  atoms : List Atom
deriving DecidableEq, Repr

/-- Python string interpolation of a value that may be None: the %s of a
missing name renders as the literal "None". -/
def pyStr : Option String → String
  | some s => s
  | none => "None"

/-- The lines built by AtomInspector.atoms_to_value for a single atom,
mirroring the four appends of the source: the molecule line always, the chain
line when atom.chain.name is not None, the residue line when the residue type
is not "placeholder", and the atom line always. -/
def single_atom_lines (atom : Atom) : List String :=
  let res := atom.residue
  let chain := res.chain
  let lines := ["<b>Molecule</b>: " ++ atom.molecule.name ++ "<br>"]
  let lines := if (Atom.chain atom).name.isSome then
      lines ++ ["<b>Chain</b> " ++ pyStr chain.name ++ "<br>"]
    else lines
  let lines := if atom.residue.type ≠ "placeholder" then
      lines ++ ["<b>Residue</b> " ++ res.name ++ ", index " ++ toString res.index ++ "<br>"]
    else lines
  lines ++ ["<b>Atom</b> " ++ atom.name ++ " (" ++ atom.symbol ++ "), index "
            ++ toString atom.index ++ "<br>"]

/-- The per-atom HTML line of the multiple-atom branch of atoms_to_value. -/
def multi_atom_line (a : Atom) : String :=
  "<b>" ++ a.name ++ "</b>, index " ++ toString a.index
    ++ " / res <b>" ++ a.residue.resname ++ "</b>, index " ++ toString a.residue.index
    ++ " / chain <b>" ++ pyStr (Atom.chain a).name ++ "</b>"

/-- AtomInspector.atoms_to_value: turn atom objects into a value to display. -/
def atoms_to_value (atoms : List Atom) : String :=
  match atoms with
  | [] => "No selection"
  | [atom] => String.intercalate "\n" (single_atom_lines atom)
  | a :: b :: rest => String.intercalate "<br>" ((a :: b :: rest).map multi_atom_line)

/-- Indexing a Python list once per element of an index list, left to right:
atoms[i] for i in indices.  An out-of-range index raises IndexError, making
the whole traversal none. -/
def lookup_atoms {α : Type} (atoms : List α) : List Nat → Option (List α)
  | [] => some []
  | i :: rest =>
      match atoms.get? i, lookup_atoms atoms rest with
      | some a, some others => some (a :: others)
      | _, _ => none

/-- AtomInspector.indices_to_value: look each index up in the atom list and
display the resulting atoms; an out-of-range index raises IndexError (none). -/
def indices_to_value (atom_indices : List Nat) (atoms : List Atom) : Option String :=
  (lookup_atoms atoms atom_indices).map atoms_to_value

/-- The single-atom summary as the specification words it: molecule-name line;
chain line exactly when the chain name is non-null; residue name and index
line exactly when the residue type is not "placeholder"; atom name, symbol and
index line; lines joined with newline, each terminated by an HTML line break. -/
def single_atom_value_spec (a : Atom) : String :=
  String.intercalate "\n"
    (["<b>Molecule</b>: " ++ a.molecule.name ++ "<br>"]
      ++ (match (Atom.chain a).name with
          | some c => ["<b>Chain</b> " ++ c ++ "<br>"]
          | none => [])
      ++ (if a.residue.type = "placeholder" then []
          else ["<b>Residue</b> " ++ a.residue.name ++ ", index "
                ++ toString a.residue.index ++ "<br>"])
      ++ ["<b>Atom</b> " ++ a.name ++ " (" ++ a.symbol ++ "), index "
          ++ toString a.index ++ "<br>"])

/-- The string s contains t as a contiguous substring. -/
def strContains (s t : String) : Prop :=
  ∃ x y, s = x ++ t ++ y

/-- The notebook-visible state of a SelBase toolbar: the wrapped viewer's
selected_atom_indices trait (a set of indices, listed in iteration order) and
the options of the SelectMultiple atom list. -/
structure SelState where
  selected_atom_indices : List Nat
  atom_list_options : List Atom
deriving DecidableEq, Repr

/-- SelBase._atom_indices_to_atoms: self.mol.atoms[i] for each index i; an
out-of-range index raises IndexError, modelled as none. -/
def _atom_indices_to_atoms (mol : Molecule) (atom_indices : List Nat) : Option (List Atom) :=
  lookup_atoms mol.atoms atom_indices

/-- SelBase.__init__: the atom list is created and then the directional_link
from the viewer's selected_atom_indices to the list's options is established,
which immediately synchronizes the options to the converted current selection. -/
def selbase_init (mol : Molecule) (viewerSelection : List Nat) : Option SelState :=
  match _atom_indices_to_atoms mol viewerSelection with
  | some atomlist => some { selected_atom_indices := viewerSelection,
                            atom_list_options := atomlist }
  | none => none

/-- Assigning the viewer's selected_atom_indices trait: the value is stored;
when it differs from the old one the directional_link fires and rewrites the
atom list's options through _atom_indices_to_atoms. -/
def set_selected_atom_indices (mol : Molecule) (st : SelState) (idx : List Nat) :
    Option SelState :=
  if idx = st.selected_atom_indices then
    some { st with selected_atom_indices := idx }
  else
    match _atom_indices_to_atoms mol idx with
    | some atomlist => some { selected_atom_indices := idx, atom_list_options := atomlist }
    | none => none

/-- SelBase.selected_atoms: recompute the atom objects from the viewer's
current index set at access time. -/
def selected_atoms (mol : Molecule) (st : SelState) : Option (List Atom) :=
  _atom_indices_to_atoms mol st.selected_atom_indices

/-- SelBase.select_all_atoms: set the viewer selection to the index of every
atom of the molecule, as enumerate produces them. -/
def select_all_atoms (mol : Molecule) (st : SelState) : Option SelState :=
  set_selected_atom_indices mol st (mol.atoms.enum.map Prod.fst)

/-- SelBase.clear_selections: set the viewer selection to the empty set. -/
def clear_selections (mol : Molecule) (st : SelState) : Option SelState :=
  set_selected_atom_indices mol st []

/-- The synchronization invariant of the selection toolbar: the atom list's
options are the viewer's current selection converted to atom objects. -/
def sel_inv (mol : Molecule) (st : SelState) : Prop :=
  _atom_indices_to_atoms mol st.selected_atom_indices = some st.atom_list_options

/-- ViewerToolBase.__getattr__: Python calls it only when normal attribute
lookup on the component fails; it then forwards to the wrapped viewer when
hasattr(self.viewer, item) holds and raises AttributeError(item) otherwise.
Attribute tables of the component and of the viewer are partial maps. -/
def viewer_tool_getattr {α : Type} (ownAttrs viewerAttrs : String → Option α)
    (item : String) : Except String α :=
  match ownAttrs item with
  | some v => Except.ok v
  | none =>
      match viewerAttrs item with
      | some v => Except.ok v
      | none => Except.error item

/-- A Python exception escaping to the caller. -/
inductive PyError where
  | attributeError : String → PyError
  | valueError : String → PyError
deriving DecidableEq, Repr

/-- The notebook-visible state of a ReadoutFloatSlider over an abstract float
type V: the component's value trait, the inner FloatSlider's value trait (the
two are kept equal by a bidirectional link), the readout Text widget's value,
the header description, and the diagnostic messages printed so far. -/
structure RFSState (V : Type) where
  value : V
  sliderValue : V
  readoutText : String
  description : String
  messages : List String
deriving DecidableEq, Repr

/-- Assigning self.slider.value: the trait stores the value; when it changed,
the bidirectional link assigns self.value, and when that in turn changed, the
observer update_readout reformats the readout from the format string. -/
def set_slider_value {V : Type} [DecidableEq V] (fmt : V → String)
    (st : RFSState V) (f : V) : RFSState V :=
  if st.sliderValue = f then
    { st with sliderValue := f }
  else if st.value = f then
    { st with sliderValue := f, value := f }
  else
    { st with sliderValue := f, value := f, readoutText := fmt f }

/-- ReadoutFloatSlider.parse_value, parameterized by the external routines:
pyFloat models the Python float() constructor (none when it raises
ValueError) and getfloatSearch models moldesign.utils.GETFLOAT.search,
returning the matched slice of the text when a numeric substring exists.
A ValueError raised by float() on the extracted slice happens outside the
try block and escapes to the caller. -/
def parse_value {V : Type} [DecidableEq V]
    (pyFloat : String → Option V) (getfloatSearch : String → Option String)
    (fmt : V → String) (st : RFSState V) : Except PyError (RFSState V) :=
  match pyFloat st.readoutText with
  | some f => Except.ok (set_slider_value fmt st f)
  | none =>
      match getfloatSearch st.readoutText with
      | none =>
          Except.ok { st with readoutText := fmt st.sliderValue,
                              messages := st.messages
                                ++ ["Couldn't parse string " ++ st.readoutText] }
      | some slice =>
          match pyFloat slice with
          | some f => Except.ok (set_slider_value fmt st f)
          | none => Except.error (PyError.valueError slice)

/-- ReadoutFloatSlider.__init__, with zero standing for the default value of
the traitlets Float trait.  When the format argument is left at its None
default, rendering the min label evaluates self.formatstring.format(min) and
raises AttributeError on the NoneType before construction completes; with a
format string supplied, the labels render, the links synchronize, the
description is set and update_readout formats the readout from the value. -/
def readout_float_slider_init {V : Type}
    (format : Option (V → String)) (minv maxv zero : V) (description : String) :
    Except PyError (RFSState V) :=
  match format with
  | none => Except.error (PyError.attributeError "format")
  | some fmt =>
      let _minlabel := fmt minv
      let _maxlabel := fmt maxv
      Except.ok { value := zero,
                  sliderValue := zero,
                  readoutText := fmt zero,
                  description := description,
                  messages := [] }

/-
Concrete fixtures used by the witness and counterexample theorems below.
-/

/-- A chain named A. -/
def chainA : Chain := { name := some "A" }

/-- A protein residue on chain A. -/
def resGly : Residue :=
  { name := "GLY2", resname := "GLY", index := 2, type := "protein", chain := chainA }

/-- The owning molecule of the fixture atoms. -/
def molref : MolRef := { name := "benzene" }

/-- Fixture atom 0. -/
def atomC : Atom :=
  { name := "C1", symbol := "C", index := 0, residue := resGly, molecule := molref }

/-- Fixture atom 1. -/
def atomN : Atom :=
  { name := "N2", symbol := "N", index := 1, residue := resGly, molecule := molref }

/-- Fixture atom 2. -/
def atomO : Atom :=
  { name := "O3", symbol := "O", index := 2, residue := resGly, molecule := molref }

/-- A three-atom fixture molecule. -/
def mol3 : Molecule := { atoms := [atomC, atomN, atomO] }

/-- A concrete instance of the Python float() constructor.  The carrier for
float values is their parsed decimal text, so the float 3.5 is carried as the
string "3.5"; the constructor accepts exactly that text. -/
def pyFloat35 : String → Option String :=
  fun s => if s = "3.5" then some "3.5" else none

/-- A concrete instance of moldesign.utils.GETFLOAT.search: in the text
"3.5xyz" it matches the numeric slice "3.5"; elsewhere it finds nothing. -/
def getfloat35 : String → Option String :=
  fun s => if s = "3.5xyz" then some "3.5" else none

/-- A concrete format string over the textual float carrier. -/
def fmtS : String → String := fun v => "value: " ++ v

/-- A slider state at float 1.0 whose readout holds the unparsable text abc. -/
def rfsAbc : RFSState String :=
  { value := "1.0", sliderValue := "1.0", readoutText := "abc", description := "d",
    messages := [] }

/-- A slider state at float 1.0 whose readout holds the text 3.5xyz. -/
def rfs35 : RFSState String :=
  { value := "1.0", sliderValue := "1.0", readoutText := "3.5xyz", description := "d",
    messages := [] }

/-- A slider state already at float 3.5 whose readout holds the text 3.5xyz. -/
def rfsStuck : RFSState String :=
  { value := "3.5", sliderValue := "3.5", readoutText := "3.5xyz", description := "d",
    messages := [] }

/-- A component attribute table defining no attribute at all. -/
def ownAttrs0 : String → Option Nat := fun _ => none

/-- A viewer attribute table defining only the attribute named render. -/
def viewerAttrs0 : String → Option Nat :=
  fun s => if s = "render" then some 7 else none

/-
Helper lemmas.
-/

/-- Looking indices up in a list extended in front, after shifting them all by
one, looks the original indices up in the original list. -/
theorem lookup_atoms_map_succ {α : Type} (a : α) (l : List α) :
    ∀ (xs : List Nat), lookup_atoms (a :: l) (xs.map Nat.succ) = lookup_atoms l xs
  | [] => rfl
  | x :: xs => by
      simp only [List.map_cons, lookup_atoms, List.get?_cons_succ,
        lookup_atoms_map_succ a l xs]

/-- Looking up every index of a list, in order, recovers the list. -/
theorem lookup_atoms_range {α : Type} :
    ∀ (l : List α), lookup_atoms l (List.range l.length) = some l
  | [] => rfl
  | a :: l => by
      rw [List.length_cons, List.range_succ_eq_map]
      simp only [lookup_atoms, List.get?_cons_zero]
      rw [lookup_atoms_map_succ a l (List.range l.length), lookup_atoms_range l]

/-- Whenever assigning the viewer selection succeeds, the stored selection is
the assigned index list, whether or not the change notification fired. -/
theorem set_selected_atom_indices_sel (mol : Molecule) (st : SelState) (idx : List Nat)
    (st' : SelState) (h : set_selected_atom_indices mol st idx = some st') :
    st'.selected_atom_indices = idx := by
  unfold set_selected_atom_indices at h
  by_cases heq : idx = st.selected_atom_indices
  · rw [if_pos heq] at h
    cases h
    rfl
  · rw [if_neg heq] at h
    cases hl : _atom_indices_to_atoms mol idx with
    | none => rw [hl] at h; cases h
    | some atomlist => rw [hl] at h; cases h; rfl

/-- Behaviour of a slider-value assignment from a state where the
bidirectional link holds (component value equal to slider value): both values
become the assigned one, messages are untouched, and the readout is
reformatted exactly when the assignment was an actual change. -/
theorem set_slider_value_spec {V : Type} [DecidableEq V] (fmt : V → String)
    (st : RFSState V) (f : V) (hlink : st.value = st.sliderValue) :
    (set_slider_value fmt st f).sliderValue = f ∧
    (set_slider_value fmt st f).value = f ∧
    (f ≠ st.sliderValue → (set_slider_value fmt st f).readoutText = fmt f) ∧
    (f = st.sliderValue → (set_slider_value fmt st f).readoutText = st.readoutText) ∧
    (set_slider_value fmt st f).messages = st.messages := by
  unfold set_slider_value
  by_cases h1 : st.sliderValue = f
  · rw [if_pos h1]
    exact ⟨rfl, by rw [hlink, h1], fun hne => absurd h1.symm hne, fun _ => rfl, rfl⟩
  · rw [if_neg h1]
    have h2 : ¬ st.value = f := by rw [hlink]; exact h1
    rw [if_neg h2]
    exact ⟨rfl, rfl, fun _ => rfl, fun heq => absurd heq.symm h1, rfl⟩

/-
Claim theorems.
-/

/-- C4: for a single atom, atoms_to_value produces the multi-line summary
described by the specification: a molecule-name line; a chain line exactly
when the chain name is non-null; a residue name and index line exactly when
the residue type is not "placeholder"; then the atom name, symbol and index
line; the lines joined with newline, each terminated by an HTML line break. -/
theorem C4_single_atom_summary (a : Atom) :
    atoms_to_value [a] = single_atom_value_spec a := by
  unfold atoms_to_value single_atom_value_spec single_atom_lines
  cases h : (Atom.chain a).name <;>
    by_cases ht : a.residue.type = "placeholder" <;>
      simp only [Atom.chain] at h <;>
        simp [Atom.chain, h, ht, pyStr]

/-- C5: for two or more atoms, atoms_to_value returns one HTML line per atom,
joined by line breaks, and each atom's line contains that atom's name, index,
residue name, residue index and chain name. -/
theorem C5_multi_atom_summary (a b : Atom) (rest : List Atom) :
    atoms_to_value (a :: b :: rest) =
      String.intercalate "<br>" ((a :: b :: rest).map multi_atom_line) ∧
    ∀ x ∈ a :: b :: rest,
      strContains (multi_atom_line x) x.name ∧
      strContains (multi_atom_line x) (toString x.index) ∧
      strContains (multi_atom_line x) x.residue.resname ∧
      strContains (multi_atom_line x) (toString x.residue.index) ∧
      strContains (multi_atom_line x) (pyStr (Atom.chain x).name) := by
  refine ⟨rfl, fun x _ => ⟨?_, ?_, ?_, ?_, ?_⟩⟩
  · exact ⟨"<b>", "</b>, index " ++ toString x.index
      ++ " / res <b>" ++ x.residue.resname ++ "</b>, index " ++ toString x.residue.index
      ++ " / chain <b>" ++ pyStr (Atom.chain x).name ++ "</b>",
      by simp [multi_atom_line, String.append_assoc]⟩
  · exact ⟨"<b>" ++ x.name ++ "</b>, index ",
      " / res <b>" ++ x.residue.resname ++ "</b>, index " ++ toString x.residue.index
      ++ " / chain <b>" ++ pyStr (Atom.chain x).name ++ "</b>",
      by simp [multi_atom_line, String.append_assoc]⟩
  · exact ⟨"<b>" ++ x.name ++ "</b>, index " ++ toString x.index ++ " / res <b>",
      "</b>, index " ++ toString x.residue.index
      ++ " / chain <b>" ++ pyStr (Atom.chain x).name ++ "</b>",
      by simp [multi_atom_line, String.append_assoc]⟩
  · exact ⟨"<b>" ++ x.name ++ "</b>, index " ++ toString x.index
      ++ " / res <b>" ++ x.residue.resname ++ "</b>, index ",
      " / chain <b>" ++ pyStr (Atom.chain x).name ++ "</b>",
      by simp [multi_atom_line, String.append_assoc]⟩
  · exact ⟨"<b>" ++ x.name ++ "</b>, index " ++ toString x.index
      ++ " / res <b>" ++ x.residue.resname ++ "</b>, index " ++ toString x.residue.index
      ++ " / chain <b>", "</b>",
      by simp [multi_atom_line, String.append_assoc]⟩

/-- C5 witness: the two-atom fixture input produces one line per atom joined
by line breaks, and the first atom's line contains its name. -/
theorem C5_multi_atom_summary_witness :
    atoms_to_value [atomC, atomN] =
      String.intercalate "<br>" ([atomC, atomN].map multi_atom_line) ∧
    strContains (multi_atom_line atomC) atomC.name :=
  ⟨(C5_multi_atom_summary atomC atomN []).1,
   ((C5_multi_atom_summary atomC atomN []).2 atomC (by simp)).1⟩

/-- C6: the empty atom collection renders as the literal string No selection,
and indices_to_value on an empty index collection does too. -/
theorem C6_empty_selection :
    atoms_to_value [] = "No selection" ∧
    ∀ atoms : List Atom, indices_to_value [] atoms = some "No selection" :=
  ⟨rfl, fun _ => rfl⟩

/-- Assigning the viewer selection always succeeds when the index conversion
does; the silent branch succeeds without converting. -/
theorem set_selected_atom_indices_isSome (mol : Molecule) (st : SelState) (idx : List Nat)
    (atomlist : List Atom) (hl : _atom_indices_to_atoms mol idx = some atomlist) :
    ∃ st', set_selected_atom_indices mol st idx = some st' := by
  unfold set_selected_atom_indices
  by_cases heq : idx = st.selected_atom_indices
  · exact ⟨_, by rw [if_pos heq]⟩
  · rw [if_neg heq, hl]
    exact ⟨_, rfl⟩

/-- C1: the multi-select list's options always equal the viewer's current
selection converted to atom objects, index i mapped to the molecule's
atoms[i] in selection order: construction establishes the invariant and every
assignment of the viewer's selected_atom_indices trait preserves it, the
options becoming exactly the conversion of the assigned index list. -/
theorem C1_selection_link_invariant :
    (∀ (mol : Molecule) (sel : List Nat) (st : SelState),
        selbase_init mol sel = some st → sel_inv mol st) ∧
    (∀ (mol : Molecule) (st : SelState) (idx : List Nat) (st' : SelState),
        sel_inv mol st → set_selected_atom_indices mol st idx = some st' →
        sel_inv mol st' ∧ st'.selected_atom_indices = idx ∧
        _atom_indices_to_atoms mol idx = some st'.atom_list_options) := by
  constructor
  · intro mol sel st h
    unfold selbase_init at h
    cases hl : _atom_indices_to_atoms mol sel with
    | none => rw [hl] at h; cases h
    | some atomlist =>
        rw [hl] at h
        cases h
        exact hl
  · intro mol st idx st' hinv h
    unfold set_selected_atom_indices at h
    by_cases heq : idx = st.selected_atom_indices
    · rw [if_pos heq] at h
      cases h
      subst heq
      exact ⟨hinv, rfl, hinv⟩
    · rw [if_neg heq] at h
      cases hl : _atom_indices_to_atoms mol idx with
      | none => rw [hl] at h; cases h
      | some atomlist =>
          rw [hl] at h
          cases h
          exact ⟨hl, rfl, rfl⟩

/-- C1 witness: on the three-atom fixture molecule, setting the viewer
selection to indices 0 and 2 makes the list's options the atom objects at
indices 0 and 2, in that order, and the link invariant holds afterwards. -/
theorem C1_selection_link_invariant_witness :
    set_selected_atom_indices mol3
        { selected_atom_indices := [], atom_list_options := [] } [0, 2] =
      some { selected_atom_indices := [0, 2], atom_list_options := [atomC, atomO] } ∧
    sel_inv mol3 { selected_atom_indices := [0, 2], atom_list_options := [atomC, atomO] } :=
  ⟨by rfl,
   (C1_selection_link_invariant.2 mol3 ⟨[], []⟩ [0, 2] ⟨[0, 2], [atomC, atomO]⟩
      (by rfl) (by rfl)).1⟩

/-- C7: the select-all action sets the viewer's selected_atom_indices to all
indices 0..N-1 of the N-atom molecule, and the clear action sets it to the
empty selection. -/
theorem C7_select_all_and_clear (mol : Molecule) (st : SelState) :
    (∃ st₁, select_all_atoms mol st = some st₁ ∧
        st₁.selected_atom_indices = List.range mol.atoms.length) ∧
    (∃ st₂, clear_selections mol st = some st₂ ∧ st₂.selected_atom_indices = []) := by
  constructor
  · have hidx : mol.atoms.enum.map Prod.fst = List.range mol.atoms.length :=
      List.enum_map_fst mol.atoms
    have hl : _atom_indices_to_atoms mol (mol.atoms.enum.map Prod.fst) = some mol.atoms := by
      unfold _atom_indices_to_atoms
      rw [hidx]
      exact lookup_atoms_range mol.atoms
    obtain ⟨st₁, h₁⟩ := set_selected_atom_indices_isSome mol st _ _ hl
    refine ⟨st₁, h₁, ?_⟩
    rw [set_selected_atom_indices_sel mol st _ st₁ h₁, hidx]
  · obtain ⟨st₂, h₂⟩ := set_selected_atom_indices_isSome mol st [] [] rfl
    exact ⟨st₂, h₂, set_selected_atom_indices_sel mol st [] st₂ h₂⟩

/-- C8: for any attribute the component does not itself define, lookup falls
back to the wrapped viewer and returns the viewer's value when the viewer has
that attribute. -/
theorem C8_getattr_delegation {α : Type} (ownAttrs viewerAttrs : String → Option α)
    (item : String) (v : α) (hown : ownAttrs item = none)
    (hviewer : viewerAttrs item = some v) :
    viewer_tool_getattr ownAttrs viewerAttrs item = Except.ok v := by
  unfold viewer_tool_getattr
  rw [hown, hviewer]

/-- C8 witness: the fixture component defines no attribute named render, the
fixture viewer maps it to 7, and lookup on the component returns 7. -/
theorem C8_getattr_delegation_witness :
    ownAttrs0 "render" = none ∧ viewerAttrs0 "render" = some 7 ∧
    viewer_tool_getattr ownAttrs0 viewerAttrs0 "render" = Except.ok 7 :=
  ⟨rfl, by decide,
   C8_getattr_delegation ownAttrs0 viewerAttrs0 "render" 7 rfl (by decide)⟩

/-- C9: selected_atoms is recomputed from the viewer's index set at access
time: after an assignment of the viewer selection it equals the conversion of
the new index list, before it equals the conversion of the old one, and the
two accesses differ whenever those conversions differ. -/
theorem C9_selected_atoms_recomputed (mol : Molecule) (st st' : SelState) (idx : List Nat)
    (h : set_selected_atom_indices mol st idx = some st') :
    selected_atoms mol st' = _atom_indices_to_atoms mol idx ∧
    selected_atoms mol st = _atom_indices_to_atoms mol st.selected_atom_indices ∧
    (_atom_indices_to_atoms mol idx ≠ _atom_indices_to_atoms mol st.selected_atom_indices →
      selected_atoms mol st' ≠ selected_atoms mol st) := by
  have hsel := set_selected_atom_indices_sel mol st idx st' h
  refine ⟨by unfold selected_atoms; rw [hsel], rfl, fun hne => ?_⟩
  unfold selected_atoms
  rw [hsel]
  exact hne

/-- C9 witness: on the three-atom fixture molecule, changing the selection
from index 0 to index 1 makes the two selected_atoms accesses differ. -/
theorem C9_selected_atoms_recomputed_witness :
    set_selected_atom_indices mol3
        { selected_atom_indices := [0], atom_list_options := [atomC] } [1] =
      some { selected_atom_indices := [1], atom_list_options := [atomN] } ∧
    selected_atoms mol3 { selected_atom_indices := [1], atom_list_options := [atomN] } ≠
      selected_atoms mol3 { selected_atom_indices := [0], atom_list_options := [atomC] } :=
  ⟨by rfl,
   (C9_selected_atoms_recomputed mol3 ⟨[0], [atomC]⟩ ⟨[1], [atomN]⟩ [1]
      (by rfl)).2.2 (by decide)⟩

/-- C2: when the submitted readout text has no parsable float and no numeric
substring, parse_value leaves both the slider value and the component value
unchanged, resets the readout text to the format string applied to the
current slider value, appends the diagnostic failure message, and returns
normally rather than raising. -/
theorem C2_unparsable_readout_recovery {V : Type} [DecidableEq V]
    (pyFloat : String → Option V) (getfloatSearch : String → Option String)
    (fmt : V → String) (st : RFSState V)
    (hfloat : pyFloat st.readoutText = none)
    (hsearch : getfloatSearch st.readoutText = none) :
    ∃ st', parse_value pyFloat getfloatSearch fmt st = Except.ok st' ∧
      st'.value = st.value ∧ st'.sliderValue = st.sliderValue ∧
      st'.readoutText = fmt st.sliderValue ∧
      st'.messages = st.messages ++ ["Couldn't parse string " ++ st.readoutText] := by
  unfold parse_value
  rw [hfloat, hsearch]
  exact ⟨_, rfl, rfl, rfl, rfl, rfl⟩

/-- C2 witness: submitting the text abc, which neither parses as a float nor
holds a numeric substring, keeps the fixture slider at value 1, reformats the
readout to the current value and records the diagnostic message. -/
theorem C2_unparsable_readout_recovery_witness :
    ∃ st', parse_value pyFloat35 getfloat35 fmtS rfsAbc = Except.ok st' ∧
      st'.value = rfsAbc.value ∧ st'.sliderValue = rfsAbc.sliderValue ∧
      st'.readoutText = fmtS rfsAbc.sliderValue ∧
      st'.messages = rfsAbc.messages ++ ["Couldn't parse string " ++ rfsAbc.readoutText] :=
  C2_unparsable_readout_recovery pyFloat35 getfloat35 fmtS rfsAbc (by decide) (by decide)

/-- C3 counterexample: submitting 3.5xyz while the slider already rests at
3.5 takes the numeric-substring path and assigns the slider value, but the
assignment is not a change, so no notification fires and the readout display
is not reformatted: it still shows 3.5xyz, not the formatted value. -/
theorem C3_counterexample_silent_equal_value :
    pyFloat35 rfsStuck.readoutText = none ∧
    getfloat35 rfsStuck.readoutText = some "3.5" ∧
    pyFloat35 "3.5" = some "3.5" ∧
    parse_value pyFloat35 getfloat35 fmtS rfsStuck = Except.ok rfsStuck ∧
    rfsStuck.readoutText ≠ fmtS rfsStuck.sliderValue ∧
    rfsStuck.readoutText ≠ fmtS "3.5" :=
  ⟨by decide, by decide, by decide, by rfl, by decide, by decide⟩

/-- C3 as amended: when the direct float parse fails but the numeric
substring search succeeds and its slice parses, parse_value assigns the
parsed slice to the slider value, the link carries it to the component value,
and, whenever the assigned value differs from the current slider value, the
readout display is reformatted to it; when the direct float parse succeeds,
the parsed float becomes the slider value the same way. -/
theorem C3_numeric_substring_sets_value {V : Type} [DecidableEq V]
    (pyFloat : String → Option V) (getfloatSearch : String → Option String)
    (fmt : V → String) (st : RFSState V) (hlink : st.value = st.sliderValue) :
    (∀ slice f, pyFloat st.readoutText = none →
        getfloatSearch st.readoutText = some slice → pyFloat slice = some f →
        ∃ st', parse_value pyFloat getfloatSearch fmt st = Except.ok st' ∧
          st'.sliderValue = f ∧ st'.value = f ∧
          (f ≠ st.sliderValue → st'.readoutText = fmt f)) ∧
    (∀ f, pyFloat st.readoutText = some f →
        ∃ st', parse_value pyFloat getfloatSearch fmt st = Except.ok st' ∧
          st'.sliderValue = f ∧ st'.value = f ∧
          (f ≠ st.sliderValue → st'.readoutText = fmt f)) := by
  constructor
  · intro slice f hfloat hsearch hslice
    obtain ⟨h1, h2, h3, _, _⟩ := set_slider_value_spec fmt st f hlink
    refine ⟨set_slider_value fmt st f, ?_, h1, h2, h3⟩
    unfold parse_value
    rw [hfloat, hsearch]
    simp only [hslice]
  · intro f hfloat
    obtain ⟨h1, h2, h3, _, _⟩ := set_slider_value_spec fmt st f hlink
    refine ⟨set_slider_value fmt st f, ?_, h1, h2, h3⟩
    unfold parse_value
    rw [hfloat]

/-- C3 witness: submitting 3.5xyz with the fixture slider at value 1 parses
the substring 3.5, sets slider and component value to 3.5 and reformats the
readout to the formatted 3.5. -/
theorem C3_numeric_substring_sets_value_witness :
    ∃ st', parse_value pyFloat35 getfloat35 fmtS rfs35 = Except.ok st' ∧
      st'.sliderValue = "3.5" ∧ st'.value = "3.5" ∧
      st'.readoutText = fmtS "3.5" := by
  obtain ⟨st', h1, h2, h3, h4⟩ :=
    (C3_numeric_substring_sets_value pyFloat35 getfloat35 fmtS rfs35 rfl).1
      "3.5" "3.5" (by decide) (by decide) (by decide)
  exact ⟨st', h1, h2, h3, h4 (by decide)⟩

/-- C10: constructing a ReadoutFloatSlider with the format argument left at
its None default fails with an AttributeError before a widget is produced,
while any supplied format string lets construction complete with the readout
already formatted from the initial value; the format parameter is therefore
effectively mandatory. -/
theorem C10_format_argument_mandatory :
    (∀ (V : Type) (minv maxv zero : V) (description : String),
        readout_float_slider_init none minv maxv zero description =
          Except.error (PyError.attributeError "format")) ∧
    (∀ (V : Type) (fmt : V → String) (minv maxv zero : V) (description : String),
        ∃ st, readout_float_slider_init (some fmt) minv maxv zero description =
            Except.ok st ∧ st.readoutText = fmt zero ∧ st.description = description) :=
  ⟨fun _ _ _ _ _ => rfl, fun _ _ _ _ _ _ => ⟨_, rfl, rfl, rfl⟩⟩

end Nbmolviz
